import Mathlib

/- Shallow embedding of pyxform/question.py: the XForm survey question
   classes and their XML control construction, together with models of the
   string primitives the module relies on (Python str.replace, str.split,
   os.path.splitext) and of the external collaborators it calls into (the
   survey-wide reference resolver and trigger lookup). -/

set_option autoImplicit false

namespace Spec2Proof

/-- Markup tree built by pyxform.utils.node / DetachableElement: an element
with a tag, an ordered attribute list, and ordered children, or a text node.
Control mappings come from Python dicts, so attribute keys are unique. -/
inductive XML where
  | elem (tag : String) (attrs : List (String × String)) (children : List XML)
  | text (s : String)

/-- Models DetachableElement.appendChild iterated over a list of children. -/
def XML.appendChildren : XML → List XML → XML
  | .elem t a c, ks => .elem t a (c ++ ks)
  | .text s, _ => .text s

/-- Children of an element (text nodes have none). -/
def XML.childrenOf : XML → List XML
  | .elem _ _ c => c
  | .text _ => []

/-- Python dict lookup `d[k]` on an ordered association list. -/
def assocLookup (k : String) : List (String × String) → Option String
  | [] => none
  | (pk, pv) :: rest => if k = pk then some pv else assocLookup k rest

/-- Attribute lookup on an element. -/
def XML.getAttr : XML → String → Option String
  | .elem _ a _, k => assocLookup k a
  | .text _, _ => none

/-- Python `k in d` on an association list. -/
def hasKey (l : List (String × String)) (k : String) : Bool :=
  l.any (fun p => p.1 == k)

/-- Python dict assignment `d[k] = v` on an ordered association list: replace
the value in place when the key is present (keys are unique, so replacing
every match models dict assignment), otherwise append the new pair. -/
def updateAssoc (l : List (String × String)) (k v : String) : List (String × String) :=
  if hasKey l k then l.map (fun p => if p.1 = k then (k, v) else p)
  else l ++ [(k, v)]

/-- Models minidom setAttribute. -/
def XML.setAttr : XML → String → String → XML
  | .elem t a c, k, v => .elem t (updateAssoc a k v) c
  | .text s, _, _ => .text s

/-- Python `d.get(k, dflt)` on an association list. -/
def getDAssoc (l : List (String × String)) (k dflt : String) : String :=
  (assocLookup k l).getD dflt

/-- Tests whether `p` is an initial segment of `cs`. -/
def matchesAt : List Char → List Char → Bool
  | [], _ => true
  | _ :: _, [] => false
  | p :: ps, c :: cs => p == c && matchesAt ps cs

/-- Python `s.startswith(pat)`. -/
def pyStartsWith (s pat : String) : Bool :=
  matchesAt pat.toList s.toList

/-- Python `c in s` for a single character. -/
def pyContainsChar (s : String) (c : Char) : Bool :=
  s.toList.any (fun d => d == c)

/-- Python `s.strip()`: drop whitespace from both ends. -/
def pythonStrip (s : String) : String :=
  String.mk (((s.toList.dropWhile Char.isWhitespace).reverse.dropWhile Char.isWhitespace).reverse)

/-- Fuel-driven core of Python `s.split(sep)` for a non-empty separator:
cut at each non-overlapping occurrence, keeping empty pieces. The fuel
starts at the length of the scanned list, which bounds the number of
steps, so the fuel-exhausted branch is unreachable. -/
def splitGo (sep : List Char) : Nat → List Char → List Char → List (List Char)
  | _, acc, [] => [acc.reverse]
  | 0, acc, cs => [acc.reverse ++ cs]
  | Nat.succ fuel, acc, c :: cs =>
    if matchesAt sep (c :: cs) then
      acc.reverse :: splitGo sep fuel [] (cs.drop (sep.length - 1))
    else splitGo sep fuel (c :: acc) cs

/-- Python `s.split(sep)` for a non-empty separator (both split calls in
question.py use "/" or the reference opener). -/
def pythonSplit (s sep : String) : List String :=
  (splitGo sep.toList s.toList.length [] s.toList).map String.mk

/-- Fuel-driven core of Python str.replace for a non-empty pattern `p`:
scan left to right, replace each non-overlapping occurrence of `p` by `r`.
The fuel starts at the length of the scanned list, which bounds the number
of steps, so the fuel-exhausted branch is unreachable. -/
def replaceGo (p r : List Char) : Nat → List Char → List Char
  | _, [] => []
  | 0, cs => cs
  | Nat.succ fuel, c :: cs =>
    if matchesAt p (c :: cs) then r ++ replaceGo p r fuel (cs.drop (p.length - 1))
    else c :: replaceGo p r fuel cs

/-- Python `s.replace(pat, rep)`: all non-overlapping occurrences, scanned
left to right; with an empty pattern Python inserts `rep` before every
character and once at the end. -/
def pythonReplace (s pat rep : String) : String :=
  match pat.toList with
  | [] => String.mk (rep.toList ++ s.toList.foldr (fun c acc => c :: (rep.toList ++ acc)) [])
  | ph :: pt => String.mk (replaceGo (ph :: pt) rep.toList s.toList.length s.toList)

/-- Index of the last occurrence of `c` in `cs`, if any. -/
def lastIdxOf (cs : List Char) (c : Char) : Option Nat :=
  (((List.enum cs).filter (fun p => p.2 == c)).getLast?).map (fun p => p.1)

/-- Python `os.path.splitext` (posix): split off the extension at the last
dot that lies after the last path separator and is preceded, within the
basename, by at least one non-dot character. -/
def splitext (p : String) : String × String :=
  let cs := p.toList
  match lastIdxOf cs '.' with
  | none => (p, "")
  | some d =>
    let bstart := match lastIdxOf cs '/' with
      | none => 0
      | some si => si + 1
    if bstart ≤ d ∧ (List.range' bstart (d - bstart)).any (fun j => cs.getD j '.' != '.') then
      (String.mk (cs.take d), String.mk (cs.drop d))
    else (p, "")

/-- Modelled from the spec: pyxform.utils.PYXFORM_REFERENCE_REGEX is not
under src; the spec describes it as a pure pattern match for the field
reference syntax, a dollar-brace opener followed by a closing brace. -/
def containsRefSyntax (s : String) : Bool :=
  match pythonSplit s "$\x7b" with
  | [] => false
  | _ :: rest => rest.any (fun t => pyContainsChar t '\x7d')

/-- Modelled from the spec: pyxform.constants is not under src; the spec's
round-trip example fixes the plain itemset value reference to "value". -/
def EXTERNAL_CHOICES_ITEMSET_REF_VALUE : String := "value"

/-- Modelled from the spec: plain itemset label reference constant. -/
def EXTERNAL_CHOICES_ITEMSET_REF_LABEL : String := "label"

/-- Modelled from the spec: geojson-specific value reference constant (the
spec names the constant but not its text; any fixed string stands for it). -/
def EXTERNAL_CHOICES_ITEMSET_REF_VALUE_GEOJSON : String := "id"

/-- Modelled from the spec: geojson-specific label reference constant. -/
def EXTERNAL_CHOICES_ITEMSET_REF_LABEL_GEOJSON : String := "title"

/-- Modelled from the spec: recognized linked-instance file extensions for
external choice files (secondary xml/csv data files and geojson). -/
def EXTERNAL_INSTANCE_EXTENSIONS : List String := [".xml", ".csv", ".geojson"]

/-- Choice entry (pyxform Option): a value name plus its already-decided
label markup fragment (label construction is outside this core). -/
structure OptionNode where
  name : String
  labelElem : XML

/-- OSM key/value grouping (pyxform Tag). -/
structure TagNode where
  name : String
  labelElem : XML
  choices : List OptionNode

/-- Survey question node. String fields use the empty string for an absent
value, matching the pyxform SurveyElement defaults, so Python truthiness is
inequality with the empty string. `labelAndHint` is the node's
already-decided label/hint markup fragments (xml_label_and_hint is outside
this core; the spec treats it as an input). `xpath` is get_xpath(), the
node's absolute binding path. The itemset field is modelled as a string
(the source guards against rare non-string itemsets with isinstance). -/
structure QNode where
  name : String
  type : String
  label : String
  hint : String
  trigger : String
  bind : List (String × String)
  control : List (String × String)
  itemset : String
  choice_filter : String
  parameters : List (String × String)
  query : String
  itemset_multi_language : Bool
  itemset_has_media : Bool
  itemset_dyn_label : Bool
  xpath : String
  labelAndHint : List XML
  choices : List OptionNode
  tags : List TagNode

/-- Context argument passed to the reference resolver: either the survey
itself or a question node (identified by its name and binding path, the
data the resolver contract depends on). -/
inductive RefCtx where
  | surveyCtx
  | questionCtx (name : String) (xpath : String)
deriving DecidableEq

/-- Resolver context for a question node. -/
def qctx (q : QNode) : RefCtx := .questionCtx q.name q.xpath

/-- External collaborators of question.py: the reference resolver
insert_xpaths(text, context, use_current, reference_parent) and the trigger
lookup get_trigger_values_for_question_name(name, kind), which returns
ordered (source name, optional expression) pairs. -/
structure Survey where
  insert_xpaths : String → RefCtx → Bool → Bool → String
  get_trigger_values_for_question_name : String → String → List (String × Option String)

/-- Errors: PyXFormError with its message, or an uncaught Python KeyError. -/
inductive Err where
  | pyxformError (msg : String)
  | keyError (key : String)
deriving DecidableEq

/-- Models pyxform.utils.node(**kwargs): the tag is taken from the "tag"
entry (KeyError when absent), and "tag" is a blocked attribute, excluded
from the element's attribute set. -/
def nodeKW (kwargs : List (String × String)) (children : List XML) : Except Err XML :=
  match assocLookup "tag" kwargs with
  | some t => .ok (.elem t (kwargs.filter (fun p => p.1 != "tag")) children)
  | none => .error (.keyError "tag")

/-- Models pyxform.utils.node(tag, *children, **kwargs) with a positional
tag; "tag" stays a blocked attribute. -/
def nodeP (tag : String) (kwargs : List (String × String)) (children : List XML) : XML :=
  .elem tag (kwargs.filter (fun p => p.1 != "tag")) children

/-- The attribute-resolution loop shared by the build_xml methods: every
control value is run through insert_xpaths with the node as context. -/
def resolveControl (s : Survey) (q : QNode) (ctrl : List (String × String)) :
    List (String × String) :=
  ctrl.map (fun p => (p.1, s.insert_xpaths p.2 (qctx q) false false))

/-- Option.xml (question.py lines 169-174): an item element holding the
label fragment then a value element with the option name as text. -/
def OptionNode.xml (o : OptionNode) : XML :=
  .elem "item" [] [o.labelElem, .elem "value" [] [.text o.name]]

/-- Tag.xml (question.py lines 331-337): a tag element with the OSM key,
the label fragment, then one item per choice. -/
def TagNode.xml (t : TagNode) : XML :=
  .elem "tag" [("key", t.name)] (t.labelElem :: t.choices.map OptionNode.xml)

/-- Whether the itemset is a previous-question reference
(PYXFORM_REFERENCE_REGEX.search on self.get("itemset"), question.py 246-248). -/
def itemsetIsPrev (q : QNode) : Bool := containsRefSyntax q.itemset

/-- The previous-question path segments (question.py 262-266): resolve the
itemset reference with reference_parent=True, strip, split on "/". -/
def itemsetPrevPathParts (s : Survey) (q : QNode) : List String :=
  pythonSplit (pythonStrip (s.insert_xpaths q.itemset (qctx q) false true)) "/"

/-- The resolved choice filter (question.py 258-278): run choice_filter
through insert_xpaths in predicate mode with the previous-question flag;
for a previous-question itemset, rewrite occurrences of
current()/nodeset and of the bare nodeset to ".", or, when no filter was
given, synthesize the non-blank guard on the final path segment. -/
def itemsetFilterResolved (s : Survey) (q : QNode) : String :=
  let cf := s.insert_xpaths q.choice_filter (qctx q) true (itemsetIsPrev q)
  if itemsetIsPrev q then
    let path := itemsetPrevPathParts s q
    let ns := String.intercalate "/" path.dropLast
    if cf ≠ "" then pythonReplace (pythonReplace cf ("current()/" ++ ns) ".") ns "."
    else "./" ++ path.getLastD "" ++ " != \x27\x27"
  else cf

/-- The node-set before the filter predicate (question.py 250-280): the
previous-question path with its final segment removed, or an
instance(...)/root/item expression over the itemset identifier (with the
extension stripped exactly when it is a recognized external extension). -/
def itemsetNodesetNoPred (s : Survey) (q : QNode) : String :=
  if itemsetIsPrev q then
    String.intercalate "/" (itemsetPrevPathParts s q).dropLast
  else
    let base := (splitext q.itemset).1
    let ext := (splitext q.itemset).2
    "instance(\x27" ++
      (if ext ∈ EXTERNAL_INSTANCE_EXTENSIONS then base else q.itemset) ++
      "\x27)/root/item"

/-- The node-set with the filter predicate appended when one exists
(question.py 282-283). -/
def itemsetPreNodeset (s : Survey) (q : QNode) : String :=
  let cf := itemsetFilterResolved s q
  let ns := itemsetNodesetNoPred s q
  if cf ≠ "" then ns ++ "[" ++ cf ++ "]" else ns

/-- The parameters block (question.py 285-301): when parameters is a
non-empty mapping whose "randomize" entry is the literal "true", wrap the
node-set in randomize(...), appending the seed as a second argument,
resolved through insert_xpaths when it starts with the reference opener
and passed through literally otherwise. -/
def applyRandomize (s : Survey) (q : QNode) (ns : String) : String :=
  if q.parameters ≠ [] then
    if assocLookup "randomize" q.parameters = some "true" then
      (let ns1 := "randomize(" ++ ns
       let ns2 :=
         match assocLookup "seed" q.parameters with
         | some seed =>
             if pyStartsWith seed "$\x7b" then
               ns1 ++ ", " ++ pythonStrip (s.insert_xpaths seed (qctx q) false false)
             else ns1 ++ ", " ++ seed
         | none => ns1
       ns2 ++ ")")
    else ns
  else ns

/-- The value/label reference pair (question.py 230-245, 252-256, 268-269):
defaults (geojson-specific for a .geojson extension) overridden by
parameters.value / parameters.label; the label reference forced to the
itext lookup when any upstream flag is set and the extension is not a
recognized external one; both replaced by the final path segment for a
previous-question itemset. -/
def itemsetRefs (s : Survey) (q : QNode) : String × String :=
  let ext := (splitext q.itemset).2
  let vref0 := getDAssoc q.parameters "value"
    (if ext = ".geojson" then EXTERNAL_CHOICES_ITEMSET_REF_VALUE_GEOJSON
     else EXTERNAL_CHOICES_ITEMSET_REF_VALUE)
  let lref0 := getDAssoc q.parameters "label"
    (if ext = ".geojson" then EXTERNAL_CHOICES_ITEMSET_REF_LABEL_GEOJSON
     else EXTERNAL_CHOICES_ITEMSET_REF_LABEL)
  let anyFlag := q.itemset_multi_language || q.itemset_has_media || q.itemset_dyn_label
  let lref1 :=
    if ext ∈ EXTERNAL_INSTANCE_EXTENSIONS then lref0
    else if !anyFlag then lref0
    else "jr:itext(itextId)"
  if itemsetIsPrev q then
    let lastSeg := (itemsetPrevPathParts s q).getLastD ""
    (lastSeg, lastSeg)
  else (vref0, lref1)

/-- The itemset element emitted for a string itemset (question.py 226-307):
a nodeset attribute and exactly a value child then a label child. -/
def compileItemset (s : Survey) (q : QNode) : XML :=
  .elem "itemset" [("nodeset", applyRandomize s q (itemsetPreNodeset s q))]
    [.elem "value" [("ref", (itemsetRefs s q).1)] [],
     .elem "label" [("ref", (itemsetRefs s q).2)] []]

/-- InputQuestion.build_xml (question.py 117-138). control_dict aliases
self.control, so the resolution loop and the added ref key mutate the node:
the updated node is returned alongside the markup. -/
def InputQuestion_build_xml (s : Survey) (q : QNode) : Except Err (XML × QNode) :=
  let c2 := updateAssoc (resolveControl s q q.control) "ref" q.xpath
  let q2 : QNode := { q with control := c2 }
  match nodeKW c2 [] with
  | .error e => .error e
  | .ok base =>
    let result := if !q.labelAndHint.isEmpty then base.appendChildren q.labelAndHint else base
    let result :=
      if q.query ≠ "" then
        let cf := s.insert_xpaths q.choice_filter (qctx q) true false
        let qs := "instance(\x27" ++ q.query ++ "\x27)/root/item"
        let qs := if cf ≠ "" then qs ++ "[" ++ cf ++ "]" else qs
        result.setAttr "query" qs
      else result
    .ok (result, q2)

/-- TriggerQuestion.build_xml (question.py 142-148); control_dict aliases
self.control. -/
def TriggerQuestion_build_xml (s : Survey) (q : QNode) : Except Err (XML × QNode) :=
  let c2 := updateAssoc (resolveControl s q q.control) "ref" q.xpath
  .ok (nodeP "trigger" c2 q.labelAndHint, { q with control := c2 })

/-- UploadQuestion.build_xml (question.py 155-162): resolve the control
values in place, set ref, then re-read the (already resolved) mediatype
through _get_media_type, a KeyError when the key is absent. -/
def UploadQuestion_build_xml (s : Survey) (q : QNode) : Except Err (XML × QNode) :=
  let c2 := updateAssoc (resolveControl s q q.control) "ref" q.xpath
  match assocLookup "mediatype" c2 with
  | none => .error (.keyError "mediatype")
  | some m =>
    let c3 := updateAssoc c2 "mediatype" m
    .ok (nodeP "upload" c3 q.labelAndHint, { q with control := c3 })

/-- OsmUploadQuestion.build_xml (question.py 356-365): unlike Upload, the
control values are not run through the resolver; ref and mediatype are set
on the aliased control dict and one tag child is nested per Tag. -/
def OsmUpload_build_xml (_s : Survey) (q : QNode) : Except Err (XML × QNode) :=
  let c2 := updateAssoc q.control "ref" q.xpath
  match assocLookup "mediatype" c2 with
  | none => .error (.keyError "mediatype")
  | some m =>
    let c3 := updateAssoc c2 "mediatype" m
    let base := nodeP "upload" c3 q.labelAndHint
    .ok (base.appendChildren (q.tags.map TagNode.xml), { q with control := c3 })

/-- RangeQuestion.build_xml (question.py 369-383): like Input but the
parameters mapping is merged into the (aliased) control dict. -/
def RangeQuestion_build_xml (s : Survey) (q : QNode) : Except Err (XML × QNode) :=
  let c2 := updateAssoc (resolveControl s q q.control) "ref" q.xpath
  let c3 := q.parameters.foldl (fun acc p => updateAssoc acc p.1 p.2) c2
  let q2 : QNode := { q with control := c3 }
  match nodeKW c3 [] with
  | .error e => .error e
  | .ok base =>
    let result := if !q.labelAndHint.isEmpty then base.appendChildren q.labelAndHint else base
    .ok (result, q2)

/-- MultipleChoiceQuestion.build_xml (question.py 211-312): check the bind
type, build the control element from a copy of the control mapping (the
node is not mutated), append the label/hint fragments, then either the
compiled itemset element or one item per inline choice. -/
def MultipleChoice_build_xml (s : Survey) (q : QNode) : Except Err (XML × QNode) :=
  match assocLookup "type" q.bind with
  | none => .error (.keyError "type")
  | some bt =>
    if bt ≠ "string" ∧ bt ≠ "odk:rank" then
      .error (.pyxformError "Invalid value for `self.bind[\"type\"]`.")
    else
      let c2 := updateAssoc (resolveControl s q q.control) "ref" q.xpath
      match nodeKW c2 [] with
      | .error e => .error e
      | .ok base =>
        let result := base.appendChildren q.labelAndHint
        if q.itemset ≠ "" then
          .ok (result.appendChildren [compileItemset s q], q)
        else
          .ok (result.appendChildren (q.choices.map OptionNode.xml), q)

/-- Question variants with a build_xml override. -/
inductive QVariant where
  | input
  | triggerQ
  | upload
  | osmUpload
  | range
  | multipleChoice
deriving DecidableEq

/-- Dispatch of build_xml by variant. -/
def build_xml : QVariant → Survey → QNode → Except Err (XML × QNode)
  | .input, s, q => InputQuestion_build_xml s q
  | .triggerQ, s, q => TriggerQuestion_build_xml s q
  | .upload, s, q => UploadQuestion_build_xml s q
  | .osmUpload, s, q => OsmUpload_build_xml s q
  | .range, s, q => RangeQuestion_build_xml s q
  | .multipleChoice, s, q => MultipleChoice_build_xml s q

/-- The hidden-question test of Question.xml_control (question.py 59-61):
a calculate type, or a calculation binding or trigger attribute with
neither label nor hint. -/
def isHidden (q : QNode) : Bool :=
  q.type == "calculate" ||
    ((hasKey q.bind "calculate" || q.trigger != "") && !(q.label != "" || q.hint != ""))

/-- The message of the fatal error raised for a hidden question targeted by
a setvalue trigger (question.py 67-71). -/
def hiddenMsg (qname src : String) : String :=
  "The question $\x7b" ++ qname ++
    "\x7d is not user-visible so it can\x27t be used as a calculation trigger for question $\x7b" ++
    src ++ "\x7d."

/-- One nested action element of Question.nest_set_nodes (question.py
97-105): ref is the resolved source reference (survey context, stripped),
event is fixed, and a value attribute is added exactly when the
accompanying expression is truthy, resolved with the host node as context. -/
def setNode (s : Survey) (q : QNode) (tag : String) (item : String × Option String) : XML :=
  let attrs := [("ref", pythonStrip (s.insert_xpaths ("$\x7b" ++ item.1 ++ "\x7d") .surveyCtx false false)),
                ("event", "xforms-value-changed")]
  let attrs :=
    match item.2 with
    | some v => if v ≠ "" then attrs ++ [("value", s.insert_xpaths v (qctx q) false false)] else attrs
    | none => attrs
  .elem tag attrs []

/-- Question.xml_control (question.py 58-94): the hidden-question check and
error, then the variant build, then the nested setvalue / odk:setgeopoint
action children appended in lookup order. -/
def xml_control (v : QVariant) (s : Survey) (q : QNode) : Except Err (Option XML × QNode) :=
  if isHidden q then
    match s.get_trigger_values_for_question_name q.name "setvalue" with
    | [] => .ok (none, q)
    | (src, _) :: _ => .error (.pyxformError (hiddenMsg q.name src))
  else
    match build_xml v s q with
    | .error e => .error e
    | .ok (x, q2) =>
      let sv := s.get_trigger_values_for_question_name q.name "setvalue"
      let sg := s.get_trigger_values_for_question_name q.name "setgeopoint"
      .ok (some (x.appendChildren
            (sv.map (setNode s q2 "setvalue") ++ sg.map (setNode s q2 "odk:setgeopoint"))), q2)

lemma getLastD_append_single {α : Type} (l : List α) (b d : α) :
    (l ++ [b]).getLastD d = b := by
  rw [List.getLastD_eq_getLast?, List.getLast?_concat]
  rfl

lemma containsRefSyntax_ne_empty {s : String} (h : containsRefSyntax s = true) :
    s ≠ "" := by
  intro he
  rw [he] at h
  exact absurd h (by decide)

lemma replaceGo_ne_nil (p r : List Char) (f : Nat) (cs : List Char)
    (hcs : cs ≠ []) (hr : r ≠ []) : replaceGo p r f cs ≠ [] := by
  cases cs with
  | nil => exact absurd rfl hcs
  | cons c cs =>
    cases f with
    | zero => simp [replaceGo]
    | succ f =>
      unfold replaceGo
      split
      · simp [hr]
      · simp

lemma pythonReplace_dot_ne_empty (s pat : String) (hs : s ≠ "") :
    pythonReplace s pat "." ≠ "" := by
  have hsl : s.toList ≠ [] := by
    intro h
    apply hs
    cases s with
    | mk data => simp [String.toList] at h; rw [h]
  unfold pythonReplace
  cases hp : pat.toList with
  | nil =>
    intro h
    cases s with
    | mk data =>
      simp only [String.toList] at hsl h
      exact absurd (congrArg String.data h) (by simp)
  | cons ph pt =>
    intro h
    have := replaceGo_ne_nil (ph :: pt) ".".toList s.toList.length s.toList hsl (by decide)
    exact this (by simpa using congrArg String.data h)

lemma assocLookup_resolveControl (s : Survey) (q : QNode)
    (ctrl : List (String × String)) (k : String) :
    assocLookup k (resolveControl s q ctrl) =
      (assocLookup k ctrl).map (fun t => s.insert_xpaths t (qctx q) false false) := by
  induction ctrl with
  | nil => rfl
  | cons p rest ih =>
    obtain ⟨pk, pv⟩ := p
    by_cases h : k = pk
    · simp [resolveControl, assocLookup, h]
    · simp only [resolveControl, List.map_cons, assocLookup, if_neg h]
      exact ih

lemma assocLookup_eq_none_of_not_hasKey (l : List (String × String)) (k : String)
    (h : hasKey l k = false) : assocLookup k l = none := by
  induction l with
  | nil => rfl
  | cons p rest ih =>
    obtain ⟨pk, pv⟩ := p
    simp only [hasKey, List.any_cons, Bool.or_eq_false_iff] at h
    have hne : k ≠ pk := fun he => by simp [he] at h
    rw [assocLookup, if_neg hne]
    exact ih (by simp [hasKey, h.2])

lemma assocLookup_map_set_self (l : List (String × String)) (k v : String)
    (h : hasKey l k = true) :
    assocLookup k (l.map (fun p => if p.1 = k then (k, v) else p)) = some v := by
  induction l with
  | nil => simp [hasKey] at h
  | cons p rest ih =>
    obtain ⟨pk, pv⟩ := p
    simp only [List.map_cons]
    by_cases hpk : pk = k
    · rw [if_pos hpk, assocLookup, if_pos rfl]
    · rw [if_neg hpk, assocLookup, if_neg (fun he => hpk he.symm)]
      simp only [hasKey, List.any_cons, Bool.or_eq_true] at h
      rcases h with h | h
      · exact absurd (by simpa using h) hpk
      · exact ih (by simpa [hasKey] using h)

lemma assocLookup_map_set_ne (l : List (String × String)) (k k' v : String)
    (h : k ≠ k') :
    assocLookup k (l.map (fun p => if p.1 = k' then (k', v) else p)) =
      assocLookup k l := by
  induction l with
  | nil => rfl
  | cons p rest ih =>
    obtain ⟨pk, pv⟩ := p
    simp only [List.map_cons]
    by_cases hpk : pk = k'
    · rw [if_pos hpk, assocLookup, if_neg h, assocLookup,
        if_neg (fun he => h (he.trans hpk))]
      exact ih
    · rw [if_neg hpk, assocLookup, assocLookup]
      by_cases hk : k = pk
      · rw [if_pos hk, if_pos hk]
      · rw [if_neg hk, if_neg hk]
        exact ih

lemma assocLookup_append_single_ne (l : List (String × String)) (k k' v : String)
    (h : k ≠ k') :
    assocLookup k (l ++ [(k', v)]) = assocLookup k l := by
  induction l with
  | nil => simp [assocLookup, if_neg h]
  | cons p rest ih =>
    obtain ⟨pk, pv⟩ := p
    simp only [List.cons_append, assocLookup]
    by_cases hk : k = pk
    · rw [if_pos hk, if_pos hk]
    · rw [if_neg hk, if_neg hk]
      exact ih

lemma assocLookup_updateAssoc_self (l : List (String × String)) (k v : String) :
    assocLookup k (updateAssoc l k v) = some v := by
  unfold updateAssoc
  by_cases hany : hasKey l k = true
  · rw [if_pos hany]
    exact assocLookup_map_set_self l k v hany
  · rw [if_neg hany]
    have h0 := assocLookup_eq_none_of_not_hasKey l k (by simpa using hany)
    induction l with
    | nil => simp [assocLookup]
    | cons p rest ih =>
      obtain ⟨pk, pv⟩ := p
      rw [assocLookup] at h0
      by_cases hk : k = pk
      · rw [if_pos hk] at h0; exact absurd h0 (by simp)
      · rw [if_neg hk] at h0
        simp only [List.cons_append]
        rw [assocLookup, if_neg hk]
        exact ih (by
          intro hh
          exact hany (by
            simp only [hasKey, List.any_cons, Bool.or_eq_true]
            exact Or.inr (by simpa [hasKey] using hh))) h0

lemma assocLookup_updateAssoc_of_ne (l : List (String × String)) (k k' v : String)
    (h : k ≠ k') : assocLookup k (updateAssoc l k' v) = assocLookup k l := by
  unfold updateAssoc
  by_cases hany : hasKey l k' = true
  · rw [if_pos hany]
    exact assocLookup_map_set_ne l k k' v h
  · rw [if_neg hany]
    exact assocLookup_append_single_ne l k k' v h

lemma assocLookup_filter_tag (l : List (String × String)) (k : String)
    (h : k ≠ "tag") :
    assocLookup k (l.filter (fun p => p.1 != "tag")) = assocLookup k l := by
  induction l with
  | nil => rfl
  | cons p rest ih =>
    obtain ⟨pk, pv⟩ := p
    by_cases hpk : pk = "tag"
    · subst hpk
      simp only [List.filter_cons, bne_self_eq_false, Bool.false_eq_true,
        if_false, assocLookup, if_neg h]
      exact ih
    · rw [List.filter_cons, if_pos (show (pk != "tag") = true by simpa [bne_iff_ne] using hpk)]
      rw [assocLookup, assocLookup]
      by_cases hk : k = pk
      · rw [if_pos hk, if_pos hk]
      · rw [if_neg hk, if_neg hk]
        exact ih

lemma str_append_ne_empty (a b : String) (ha : a ≠ "") : a ++ b ≠ "" := by
  intro h
  apply ha
  obtain ⟨da⟩ := a
  obtain ⟨db⟩ := b
  have hd : da ++ db = [] := congrArg String.data h
  rw [(List.append_eq_nil.mp hd).1]

lemma applyRandomize_eq_of_not_random (s : Survey) (q : QNode) (ns : String)
    (hrand : assocLookup "randomize" q.parameters ≠ some "true") :
    applyRandomize s q ns = ns := by
  unfold applyRandomize
  by_cases hp : q.parameters ≠ []
  · rw [if_pos hp, if_neg hrand]
  · rw [if_neg hp]

lemma itemsetFilterResolved_ne_empty_of_prev (s : Survey) (q : QNode)
    (hprev : itemsetIsPrev q = true) : itemsetFilterResolved s q ≠ "" := by
  unfold itemsetFilterResolved
  rw [if_pos hprev]
  split
  · next hcf =>
      exact pythonReplace_dot_ne_empty _ _
        (pythonReplace_dot_ne_empty _ _ hcf)
  · exact str_append_ne_empty _ _ (str_append_ne_empty "./" _ (by decide))

lemma MultipleChoice_build_ok_itemset {s : Survey} {q : QNode} {x : XML}
    {q2 : QNode} (hb : MultipleChoice_build_xml s q = .ok (x, q2))
    (hit : q.itemset ≠ "") :
    q2 = q ∧ x.childrenOf.getLastD (.text "") = compileItemset s q := by
  unfold MultipleChoice_build_xml at hb
  rcases hlt : assocLookup "type" q.bind with _ | bt
  · rw [hlt] at hb
    exact absurd hb (by simp)
  · simp only [hlt] at hb
    split at hb
    · exact absurd hb (by simp)
    · rcases hnk : assocLookup "tag"
        (updateAssoc (resolveControl s q q.control) "ref" q.xpath) with _ | tg
      · simp only [nodeKW, hnk] at hb
        exact absurd hb (by simp)
      · simp only [nodeKW, hnk, if_pos hit] at hb
        simp only [Except.ok.injEq, Prod.mk.injEq] at hb
        obtain ⟨hx, hq⟩ := hb
        refine ⟨hq.symm, ?_⟩
        rw [← hx]
        simp only [XML.appendChildren, XML.childrenOf]
        exact getLastD_append_single _ _ _

/-- Identity reference resolver: returns every expression unchanged. -/
def idResolver : String → RefCtx → Bool → Bool → String := fun t _ _ _ => t

/-- Trigger lookup returning no dependent actions for any question. -/
def noTriggers : String → String → List (String × Option String) := fun _ _ => []

/-- Survey with the identity resolver and no triggers. -/
def surveyId : Survey := ⟨idResolver, noTriggers⟩

/-- Resolver that maps the reference to the previous question "prev" to its
absolute path inside a repeat when reference_parent is set. -/
def prevResolver : String → RefCtx → Bool → Bool → String :=
  fun t _ _ rp => if rp && (t == "$\x7bprev\x7d") then "/data/rep/prev" else t

/-- Survey resolving the "prev" reference, with no triggers. -/
def surveyPrev : Survey := ⟨prevResolver, noTriggers⟩

/-- A select-one node choosing from the static external list "colors". -/
def qColors : QNode :=
  { name := "color", type := "select one", label := "Color", hint := "",
    trigger := "", bind := [("type", "string")], control := [("tag", "select1")],
    itemset := "colors", choice_filter := "", parameters := [], query := "",
    itemset_multi_language := false, itemset_has_media := false,
    itemset_dyn_label := false, xpath := "/data/color", labelAndHint := [],
    choices := [], tags := [] }

/-- The colors node with an invalid bind type. -/
def qBadBind : QNode := { qColors with bind := [("type", "int")] }

/-- A select-one node whose itemset references the previous question "prev". -/
def qPrevLinked : QNode :=
  { qColors with name := "fav", xpath := "/data/fav", itemset := "$\x7bprev\x7d" }

/-- The control element built for qPrevLinked. -/
def xPrevLinked : XML :=
  .elem "select1" [("ref", "/data/fav")]
    [.elem "itemset" [("nodeset", "/data/rep[./prev != \x27\x27]")]
      [.elem "value" [("ref", "prev")] [], .elem "label" [("ref", "prev")] []]]

/-- A hidden calculation node. -/
def qCalc : QNode :=
  { name := "calcq", type := "calculate", label := "", hint := "", trigger := "",
    bind := [("calculate", "1")], control := [("tag", "input")], itemset := "",
    choice_filter := "", parameters := [], query := "",
    itemset_multi_language := false, itemset_has_media := false,
    itemset_dyn_label := false, xpath := "/data/calcq", labelAndHint := [],
    choices := [], tags := [] }

/-- Survey in which node "b" declares a setvalue trigger targeting "calcq". -/
def surveyCalcTrig : Survey :=
  ⟨idResolver, fun n k =>
    if n == "calcq" && k == "setvalue" then [("b", some "1 + 1")] else []⟩

/-- C5: for a SelectOne node with itemset "colors" (no recognized external
extension, no filter, no parameters, all upstream flags false), build_xml
emits an itemset element with exactly a nodeset attribute equal to
instance('colors')/root/item and exactly two children in order: a value
element with ref "value" followed by a label element with ref "label". -/
theorem C5_select_one_colors_roundtrip :
    MultipleChoice_build_xml surveyId qColors =
      .ok (.elem "select1" [("ref", "/data/color")]
        [.elem "itemset" [("nodeset", "instance(\x27colors\x27)/root/item")]
          [.elem "value" [("ref", "value")] [],
           .elem "label" [("ref", "label")] []]], qColors) := by
  rfl

/-- C6: for every MultipleChoice node whose bind type is present, build_xml
raises the fatal bind-type error exactly when the bind type is outside
the set with "string" and "odk:rank", and never raises this error when the
bind type is in that set. -/
theorem C6_bind_type_restriction (s : Survey) (q : QNode) (bt : String)
    (hbt : assocLookup "type" q.bind = some bt) :
    (¬(bt = "string" ∨ bt = "odk:rank") →
      MultipleChoice_build_xml s q =
        .error (.pyxformError "Invalid value for `self.bind[\"type\"]`.")) ∧
    ((bt = "string" ∨ bt = "odk:rank") →
      MultipleChoice_build_xml s q ≠
        .error (.pyxformError "Invalid value for `self.bind[\"type\"]`.")) := by
  constructor
  · intro hout
    unfold MultipleChoice_build_xml
    simp only [hbt]
    rw [if_pos ⟨fun h => hout (Or.inl h), fun h => hout (Or.inr h)⟩]
  · intro hin
    unfold MultipleChoice_build_xml
    simp only [hbt]
    rw [if_neg (by
      rcases hin with h | h
      · exact fun hc => hc.1 h
      · exact fun hc => hc.2 h)]
    rcases hnk : assocLookup "tag"
      (updateAssoc (resolveControl s q q.control) "ref" q.xpath) with _ | tg
    · simp [nodeKW, hnk]
    · simp only [nodeKW, hnk]
      split
      · simp
      · simp

/-- Witness for C6 at concrete inputs: bind type "int" raises the error,
bind type "string" does not. -/
theorem C6_bind_type_restriction_witness :
    MultipleChoice_build_xml surveyId qBadBind =
      .error (.pyxformError "Invalid value for `self.bind[\"type\"]`.") ∧
    MultipleChoice_build_xml surveyId qColors ≠
      .error (.pyxformError "Invalid value for `self.bind[\"type\"]`.") :=
  ⟨(C6_bind_type_restriction surveyId qBadBind "int" rfl).1 (by decide),
   (C6_bind_type_restriction surveyId qColors "string" rfl).2 (Or.inl rfl)⟩

/-- C3: for every hidden question node (calculate type, or a calculation
binding or trigger attribute with neither label nor hint), xml_control
raises a fatal error naming both the hidden node and the dependent source
node when a setvalue trigger targets it, and returns an absent control
without error when no such trigger exists. -/
theorem C3_hidden_question_control (v : QVariant) (s : Survey) (q : QNode)
    (hh : isHidden q = true) :
    (s.get_trigger_values_for_question_name q.name "setvalue" = [] →
      xml_control v s q = .ok (none, q)) ∧
    (∀ src e rest,
      s.get_trigger_values_for_question_name q.name "setvalue" = (src, e) :: rest →
      xml_control v s q = .error (.pyxformError
        ("The question $\x7b" ++ q.name ++
         "\x7d is not user-visible so it can\x27t be used as a calculation trigger for question $\x7b"
         ++ src ++ "\x7d."))) := by
  constructor
  · intro hnone
    unfold xml_control
    simp only [if_pos hh, hnone]
  · intro src e rest htrig
    unfold xml_control
    simp only [if_pos hh, htrig, hiddenMsg]

/-- Witness for C3 at concrete inputs: the hidden node "calcq" targeted by
a setvalue trigger from "b" raises the error naming both; with no trigger
it compiles to an absent control. -/
theorem C3_hidden_question_control_witness :
    xml_control .input surveyCalcTrig qCalc = .error (.pyxformError
      "The question $\x7bcalcq\x7d is not user-visible so it can\x27t be used as a calculation trigger for question $\x7bb\x7d.") ∧
    xml_control .input surveyId qCalc = .ok (none, qCalc) :=
  ⟨(C3_hidden_question_control .input surveyCalcTrig qCalc rfl).2
      "b" (some "1 + 1") [] rfl,
   (C3_hidden_question_control .input surveyId qCalc rfl).1 rfl⟩

/-- C1: for every MultipleChoice node whose itemset matches the field
reference syntax (and randomize is not requested), the emitted itemset has
node-set equal to the parent-context resolved reference path with its final
segment removed joined by "/", value and label references equal to the
final segment, the filter with current()/nodeset and bare nodeset rewritten
to ".", and, with no filter, the predicate exactly ./<final> != ''. -/
theorem C1_previous_question_itemset (s : Survey) (q : QNode) (x : XML)
    (q2 : QNode)
    (hprev : containsRefSyntax q.itemset = true)
    (hrand : assocLookup "randomize" q.parameters ≠ some "true")
    (hb : MultipleChoice_build_xml s q = .ok (x, q2)) :
    x.childrenOf.getLastD (.text "") =
      (let path := pythonSplit
        (pythonStrip (s.insert_xpaths q.itemset (qctx q) false true)) "/"
       let ns := String.intercalate "/" path.dropLast
       let lastSeg := path.getLastD ""
       let cf := s.insert_xpaths q.choice_filter (qctx q) true true
       let filt := if cf ≠ "" then
           pythonReplace (pythonReplace cf ("current()/" ++ ns) ".") ns "."
         else "./" ++ lastSeg ++ " != \x27\x27"
       XML.elem "itemset" [("nodeset", ns ++ "[" ++ filt ++ "]")]
         [XML.elem "value" [("ref", lastSeg)] [],
          XML.elem "label" [("ref", lastSeg)] []]) := by
  obtain ⟨hq2, hlast⟩ :=
    MultipleChoice_build_ok_itemset hb (containsRefSyntax_ne_empty hprev)
  rw [hlast]
  have hp : itemsetIsPrev q = true := hprev
  have hns : itemsetNodesetNoPred s q = String.intercalate "/"
      ((pythonSplit (pythonStrip
        (s.insert_xpaths q.itemset (qctx q) false true)) "/").dropLast) := by
    unfold itemsetNodesetNoPred itemsetPrevPathParts
    rw [if_pos hp]
  have hcf : itemsetFilterResolved s q =
      (if s.insert_xpaths q.choice_filter (qctx q) true true ≠ "" then
        pythonReplace (pythonReplace
            (s.insert_xpaths q.choice_filter (qctx q) true true)
            ("current()/" ++ String.intercalate "/"
              ((pythonSplit (pythonStrip
                (s.insert_xpaths q.itemset (qctx q) false true)) "/").dropLast)) ".")
          (String.intercalate "/"
            ((pythonSplit (pythonStrip
              (s.insert_xpaths q.itemset (qctx q) false true)) "/").dropLast)) "."
       else "./" ++ (pythonSplit (pythonStrip
          (s.insert_xpaths q.itemset (qctx q) false true)) "/").getLastD ""
          ++ " != \x27\x27") := by
    unfold itemsetFilterResolved itemsetPrevPathParts
    rw [hp]
    simp only [if_true]
  have hpre : itemsetPreNodeset s q =
      itemsetNodesetNoPred s q ++ "[" ++ itemsetFilterResolved s q ++ "]" := by
    unfold itemsetPreNodeset
    rw [if_pos (itemsetFilterResolved_ne_empty_of_prev s q hp)]
  have hrefs : itemsetRefs s q =
      ((pythonSplit (pythonStrip
          (s.insert_xpaths q.itemset (qctx q) false true)) "/").getLastD "",
       (pythonSplit (pythonStrip
          (s.insert_xpaths q.itemset (qctx q) false true)) "/").getLastD "") := by
    unfold itemsetRefs itemsetPrevPathParts
    rw [hp]
    simp only [if_true]
  unfold compileItemset
  rw [applyRandomize_eq_of_not_random s q _ hrand, hpre, hns, hcf, hrefs]

/-- Witness for C1 at a concrete previous-question itemset with no filter:
the predicate is exactly ./prev != ''. -/
theorem C1_previous_question_itemset_witness :
    containsRefSyntax qPrevLinked.itemset = true ∧
    xPrevLinked.childrenOf.getLastD (.text "") =
      .elem "itemset" [("nodeset", "/data/rep[./prev != \x27\x27]")]
        [.elem "value" [("ref", "prev")] [],
         .elem "label" [("ref", "prev")] []] :=
  ⟨rfl, C1_previous_question_itemset surveyPrev qPrevLinked xPrevLinked
    qPrevLinked rfl (by decide) rfl⟩

/-- The colors node with randomize and a literal seed. -/
def qRand : QNode :=
  { qColors with parameters := [("randomize", "true"), ("seed", "42")] }

/-- The control element built for qRand. -/
def xRand : XML :=
  .elem "select1" [("ref", "/data/color")]
    [.elem "itemset"
      [("nodeset", "randomize(instance(\x27colors\x27)/root/item, 42)")]
      [.elem "value" [("ref", "value")] [], .elem "label" [("ref", "label")] []]]

/-- C4: with parameters.randomize = "true" the emitted node-set is the
already-filtered node-set wrapped as randomize(...), with the seed appended
as a second argument, resolved through the resolver when it looks like a
field reference and passed literally otherwise; without randomize the
emitted node-set is exactly the unwrapped expression, and the filter
predicate, when present, is the last bracket applied before wrapping. -/
theorem C4_randomize_wrapping (s : Survey) (q : QNode) (x : XML) (q2 : QNode)
    (hit : q.itemset ≠ "")
    (hrand : assocLookup "randomize" q.parameters = some "true")
    (hb : MultipleChoice_build_xml s q = .ok (x, q2)) :
    ((x.childrenOf.getLastD (.text "")).getAttr "nodeset" =
      some (match assocLookup "seed" q.parameters with
        | none => "randomize(" ++ itemsetPreNodeset s q ++ ")"
        | some seed =>
          "randomize(" ++ itemsetPreNodeset s q ++ ", " ++
            (if pyStartsWith seed "$\x7b" then
               pythonStrip (s.insert_xpaths seed (qctx q) false false)
             else seed) ++ ")")) ∧
    (∀ q' : QNode, assocLookup "randomize" q'.parameters ≠ some "true" →
      (compileItemset s q').getAttr "nodeset" = some (itemsetPreNodeset s q')) ∧
    (itemsetFilterResolved s q ≠ "" →
      itemsetPreNodeset s q =
        itemsetNodesetNoPred s q ++ "[" ++ itemsetFilterResolved s q ++ "]") := by
  have hpne : q.parameters ≠ [] := by
    intro h
    rw [h] at hrand
    exact absurd hrand (by simp [assocLookup])
  obtain ⟨hq2, hlast⟩ := MultipleChoice_build_ok_itemset hb hit
  refine ⟨?_, ?_, ?_⟩
  · rw [hlast]
    have hattr : (compileItemset s q).getAttr "nodeset" =
        some (applyRandomize s q (itemsetPreNodeset s q)) := rfl
    rw [hattr]
    unfold applyRandomize
    rw [if_pos hpne, if_pos hrand]
    rcases hseed : assocLookup "seed" q.parameters with _ | seed <;>
      simp only [hseed]
    by_cases hsw : pyStartsWith seed "$\x7b" = true
    · rw [if_pos hsw, if_pos hsw]
    · rw [if_neg hsw, if_neg hsw]
  · intro q' h
    have hattr : (compileItemset s q').getAttr "nodeset" =
        some (applyRandomize s q' (itemsetPreNodeset s q')) := rfl
    rw [hattr, applyRandomize_eq_of_not_random s q' _ h]
  · intro h
    unfold itemsetPreNodeset
    rw [if_pos h]

/-- Witness for C4 at randomize = "true", seed = "42": the node-set is
randomize(<base>, 42) with <base> the non-randomized expression. -/
theorem C4_randomize_wrapping_witness :
    (xRand.childrenOf.getLastD (.text "")).getAttr "nodeset" =
      some "randomize(instance(\x27colors\x27)/root/item, 42)" ∧
    (compileItemset surveyId qColors).getAttr "nodeset" =
      some "instance(\x27colors\x27)/root/item" :=
  ⟨(C4_randomize_wrapping surveyId qRand xRand qRand (by decide) rfl rfl).1,
   (C4_randomize_wrapping surveyId qRand xRand qRand (by decide) rfl rfl).2.1
      qColors (by decide)⟩

/-- The previous-question itemset node with the has-media flag set. -/
def qPrevFlag : QNode := { qPrevLinked with itemset_has_media := true }

/-- Counterexample to C2: a previous-question itemset with the has-media
flag set emits label ref "prev" (the final path segment), not the itext
lookup expression, so a raised flag does not always force the itext label
reference. -/
theorem C2_counterexample_prev_flag :
    qPrevFlag.itemset_has_media = true ∧
    (MultipleChoice_build_xml surveyPrev qPrevFlag).toOption.map
        (fun p => (p.1.childrenOf.getLastD (.text "")).childrenOf) =
      some [.elem "value" [("ref", "prev")] [],
            .elem "label" [("ref", "prev")] []] ∧
    ("prev" : String) ≠ "jr:itext(itextId)" :=
  ⟨rfl, rfl, by decide⟩

/-- C2 as amended: for a non-previous-question string itemset, the label
reference is the itext lookup exactly when some upstream flag is set and
the extension is not a recognized external-instance extension; otherwise
value and label references are parameters.value / parameters.label when
present, else the geojson constants for a .geojson extension, else the
plain constants. For previous-question itemsets both references are the
final path segment regardless of the flags (see C1). -/
theorem C2_amended_itemset_refs (s : Survey) (q : QNode) (x : XML) (q2 : QNode)
    (hit : q.itemset ≠ "")
    (hprev : containsRefSyntax q.itemset = false)
    (hb : MultipleChoice_build_xml s q = .ok (x, q2)) :
    (x.childrenOf.getLastD (.text "")).childrenOf =
      [.elem "value" [("ref",
          getDAssoc q.parameters "value"
            (if (splitext q.itemset).2 = ".geojson" then
              EXTERNAL_CHOICES_ITEMSET_REF_VALUE_GEOJSON
             else EXTERNAL_CHOICES_ITEMSET_REF_VALUE))] [],
       .elem "label" [("ref",
          if (q.itemset_multi_language || q.itemset_has_media
              || q.itemset_dyn_label) = true
             ∧ (splitext q.itemset).2 ∉ EXTERNAL_INSTANCE_EXTENSIONS then
            "jr:itext(itextId)"
          else getDAssoc q.parameters "label"
            (if (splitext q.itemset).2 = ".geojson" then
              EXTERNAL_CHOICES_ITEMSET_REF_LABEL_GEOJSON
             else EXTERNAL_CHOICES_ITEMSET_REF_LABEL))] []] := by
  obtain ⟨hq2, hlast⟩ := MultipleChoice_build_ok_itemset hb hit
  rw [hlast]
  have hp : itemsetIsPrev q = false := hprev
  unfold compileItemset itemsetRefs
  rw [hp]
  simp only [Bool.false_eq_true, if_false, XML.childrenOf]
  by_cases hext : (splitext q.itemset).2 ∈ EXTERNAL_INSTANCE_EXTENSIONS
  · simp [hext]
  · by_cases hflag : (q.itemset_multi_language || q.itemset_has_media
        || q.itemset_dyn_label) = true
    · simp [hext, hflag]
    · have hf : (q.itemset_multi_language || q.itemset_has_media
          || q.itemset_dyn_label) = false := by
        cases h : (q.itemset_multi_language || q.itemset_has_media
            || q.itemset_dyn_label) with
        | true => exact absurd h hflag
        | false => rfl
      simp [hext, hf]

/-- A geojson itemset node with the multi-language flag raised; geojson is
a recognized external extension, so the label reference stays the
parameters/default one. -/
def qGeo : QNode :=
  { qColors with itemset := "areas.geojson", itemset_multi_language := true }

/-- Witness for the amended C2 at two concrete inputs: a flagged geojson
itemset keeps the geojson label constant, while a flagged plain itemset
gets the itext label reference. -/
theorem C2_amended_itemset_refs_witness :
    ((MultipleChoice_build_xml surveyId qGeo).toOption.map
        (fun p => (p.1.childrenOf.getLastD (.text "")).childrenOf) =
      some [.elem "value" [("ref", EXTERNAL_CHOICES_ITEMSET_REF_VALUE_GEOJSON)] [],
            .elem "label" [("ref", EXTERNAL_CHOICES_ITEMSET_REF_LABEL_GEOJSON)] []]) ∧
    ((MultipleChoice_build_xml surveyId
          { qColors with itemset_has_media := true }).toOption.map
        (fun p => (p.1.childrenOf.getLastD (.text "")).childrenOf) =
      some [.elem "value" [("ref", "value")] [],
            .elem "label" [("ref", "jr:itext(itextId)")] []]) := by
  constructor
  · have h := C2_amended_itemset_refs surveyId qGeo
      (.elem "select1" [("ref", "/data/color")]
        [.elem "itemset" [("nodeset", "instance(\x27areas\x27)/root/item")]
          [.elem "value" [("ref", EXTERNAL_CHOICES_ITEMSET_REF_VALUE_GEOJSON)] [],
           .elem "label" [("ref", EXTERNAL_CHOICES_ITEMSET_REF_LABEL_GEOJSON)] []]])
      qGeo (by decide) rfl rfl
    exact congrArg some h
  · have h := C2_amended_itemset_refs surveyId
      { qColors with itemset_has_media := true }
      (.elem "select1" [("ref", "/data/color")]
        [.elem "itemset" [("nodeset", "instance(\x27colors\x27)/root/item")]
          [.elem "value" [("ref", "value")] [],
           .elem "label" [("ref", "jr:itext(itextId)")] []]])
      { qColors with itemset_has_media := true } (by decide) rfl rfl
    exact congrArg some h

/-- Resolver mapping the field reference to question "a" to its path. -/
def refAResolver : String → RefCtx → Bool → Bool → String :=
  fun t _ _ _ => if t == "$\x7ba\x7d" then "/d/a" else t

/-- Survey resolving the "a" reference, with no triggers. -/
def surveyA : Survey := ⟨refAResolver, noTriggers⟩

/-- An OSM upload node whose control holds an unresolved field reference. -/
def qOsm : QNode :=
  { name := "osm", type := "osm", label := "", hint := "", trigger := "",
    bind := [], control := [("tag", "upload"), ("mediatype", "image/*"),
      ("appearance", "$\x7ba\x7d")],
    itemset := "", choice_filter := "", parameters := [], query := "",
    itemset_multi_language := false, itemset_has_media := false,
    itemset_dyn_label := false, xpath := "/data/osm",
    labelAndHint := [],
    choices := [], tags := [⟨"key1", .text "L", [⟨"v1", .text "VL"⟩]⟩] }

/-- Counterexample to C7: OsmUpload.build_xml does not run the control
values through the Reference Resolver, unlike Upload.build_xml: on the
same node, Upload emits the resolved appearance while OsmUpload emits the
raw reference, so the OSM upload element is not the Upload element plus
tag children. -/
theorem C7_counterexample_osm_not_resolved :
    ((OsmUpload_build_xml surveyA qOsm).toOption.map
        fun p => p.1.getAttr "appearance") = some (some "$\x7ba\x7d") ∧
    ((UploadQuestion_build_xml surveyA qOsm).toOption.map
        fun p => p.1.getAttr "appearance") = some (some "/d/a") ∧
    ("$\x7ba\x7d" : String) ≠ "/d/a" :=
  ⟨rfl, rfl, by decide⟩

/-- C7 as amended: OsmUpload.build_xml emits an upload element whose
attributes are the node's control mapping verbatim (no reference
resolution) with ref set to the binding path and mediatype re-set from the
stored control, and whose children are the label/hint fragments followed
by one tag element per Tag child — a tag element with key equal to the
tag's name, the label child, and one item child per Option. -/
theorem C7_amended_osm_structure (s : Survey) (q : QNode) (m : String)
    (hm : assocLookup "mediatype" (updateAssoc q.control "ref" q.xpath) = some m) :
    OsmUpload_build_xml s q =
      .ok (.elem "upload"
          ((updateAssoc (updateAssoc q.control "ref" q.xpath) "mediatype" m).filter
            (fun p => p.1 != "tag"))
          (q.labelAndHint ++ q.tags.map (fun t =>
            XML.elem "tag" [("key", t.name)]
              (t.labelElem :: t.choices.map (fun o =>
                XML.elem "item" [] [o.labelElem,
                  XML.elem "value" [] [XML.text o.name]])))),
        { q with control :=
            updateAssoc (updateAssoc q.control "ref" q.xpath) "mediatype" m }) := by
  unfold OsmUpload_build_xml
  simp only [hm]
  rfl

/-- Witness for the amended C7 at a concrete node: raw appearance kept,
ref and mediatype set, one nested tag with key, label and one item. -/
theorem C7_amended_osm_structure_witness :
    OsmUpload_build_xml surveyA qOsm =
      .ok (.elem "upload"
          [("mediatype", "image/*"), ("appearance", "$\x7ba\x7d"),
           ("ref", "/data/osm")]
          [.elem "tag" [("key", "key1")]
            [.text "L",
             .elem "item" [] [.text "VL", .elem "value" [] [.text "v1"]]]],
        { qOsm with control := [("tag", "upload"), ("mediatype", "image/*"),
          ("appearance", "$\x7ba\x7d"), ("ref", "/data/osm")] }) :=
  C7_amended_osm_structure surveyA qOsm "image/*" rfl

/-- A plain input node. -/
def qInput : QNode :=
  { name := "q8", type := "text", label := "L8", hint := "", trigger := "",
    bind := [], control := [("tag", "input")], itemset := "",
    choice_filter := "", parameters := [], query := "",
    itemset_multi_language := false, itemset_has_media := false,
    itemset_dyn_label := false, xpath := "/data/q8", labelAndHint := [],
    choices := [], tags := [] }

/-- Counterexample to C8: InputQuestion.build_xml aliases self.control, so
building mutates the node: the returned node's control has gained the ref
key, differing from the control stored before the build. -/
theorem C8_counterexample_input_mutates :
    ((InputQuestion_build_xml surveyId qInput).toOption.map
        fun p => p.2.control) =
      some [("tag", "input"), ("ref", "/data/q8")] ∧
    qInput.control = [("tag", "input")] ∧
    ([("tag", "input"), ("ref", "/data/q8")] : List (String × String)) ≠
      [("tag", "input")] :=
  ⟨rfl, rfl, by decide⟩

/-- Inversion: a successful MultipleChoice build returns the node
unchanged (the control mapping is copied before mutation). -/
lemma MultipleChoice_build_ok_node {s : Survey} {q : QNode} {x : XML}
    {q2 : QNode} (hb : MultipleChoice_build_xml s q = .ok (x, q2)) :
    q2 = q := by
  unfold MultipleChoice_build_xml at hb
  rcases hlt : assocLookup "type" q.bind with _ | bt
  · rw [hlt] at hb
    exact absurd hb (by simp)
  · simp only [hlt] at hb
    split at hb
    · exact absurd hb (by simp)
    · rcases hnk : assocLookup "tag"
        (updateAssoc (resolveControl s q q.control) "ref" q.xpath) with _ | tg
      · simp only [nodeKW, hnk] at hb
        exact absurd hb (by simp)
      · simp only [nodeKW, hnk] at hb
        split at hb <;>
          (simp only [Except.ok.injEq, Prod.mk.injEq] at hb
           exact hb.2.symm)

/-- C8 as amended: a successful build never mutates any stored field of
the node other than the control mapping, and the MultipleChoice variant
mutates nothing at all; the other variants update the control mapping in
place (resolved values and added keys). -/
theorem C8_amended_no_mutation_outside_control (v : QVariant) (s : Survey)
    (q : QNode) (x : XML) (q2 : QNode)
    (hb : build_xml v s q = .ok (x, q2)) :
    q2 = { q with control := q2.control } ∧
    (v = .multipleChoice → q2 = q) := by
  cases v
  case multipleChoice =>
    have hq := MultipleChoice_build_ok_node (by exact hb)
    exact ⟨by rw [hq], fun _ => hq⟩
  case input =>
    unfold build_xml InputQuestion_build_xml at hb
    rcases hnk : assocLookup "tag"
      (updateAssoc (resolveControl s q q.control) "ref" q.xpath) with _ | tg
    · simp only [nodeKW, hnk] at hb
      exact absurd hb (by simp)
    · simp only [nodeKW, hnk] at hb
      simp only [Except.ok.injEq, Prod.mk.injEq] at hb
      refine ⟨?_, fun h => QVariant.noConfusion h⟩
      rw [← hb.2]
  case triggerQ =>
    unfold build_xml TriggerQuestion_build_xml at hb
    simp only [Except.ok.injEq, Prod.mk.injEq] at hb
    refine ⟨?_, fun h => QVariant.noConfusion h⟩
    rw [← hb.2]
  case upload =>
    unfold build_xml UploadQuestion_build_xml at hb
    rcases hm : assocLookup "mediatype"
      (updateAssoc (resolveControl s q q.control) "ref" q.xpath) with _ | m
    · simp only [hm] at hb
      exact absurd hb (by simp)
    · simp only [hm] at hb
      simp only [Except.ok.injEq, Prod.mk.injEq] at hb
      refine ⟨?_, fun h => QVariant.noConfusion h⟩
      rw [← hb.2]
  case osmUpload =>
    unfold build_xml OsmUpload_build_xml at hb
    rcases hm : assocLookup "mediatype"
      (updateAssoc q.control "ref" q.xpath) with _ | m
    · simp only [hm] at hb
      exact absurd hb (by simp)
    · simp only [hm] at hb
      simp only [Except.ok.injEq, Prod.mk.injEq] at hb
      refine ⟨?_, fun h => QVariant.noConfusion h⟩
      rw [← hb.2]
  case range =>
    unfold build_xml RangeQuestion_build_xml at hb
    rcases hnk : assocLookup "tag"
      (q.parameters.foldl (fun acc p => updateAssoc acc p.1 p.2)
        (updateAssoc (resolveControl s q q.control) "ref" q.xpath)) with _ | tg
    · simp only [nodeKW, hnk] at hb
      exact absurd hb (by simp)
    · simp only [nodeKW, hnk] at hb
      simp only [Except.ok.injEq, Prod.mk.injEq] at hb
      refine ⟨?_, fun h => QVariant.noConfusion h⟩
      rw [← hb.2]

/-- Witness for the amended C8: a concrete Input build changes only the
control mapping, and a concrete MultipleChoice build returns the node
unchanged. -/
theorem C8_amended_no_mutation_outside_control_witness :
    ({ qInput with control := [("tag", "input"), ("ref", "/data/q8")] } : QNode) =
      { qInput with control :=
        ({ qInput with control := [("tag", "input"), ("ref", "/data/q8")] } : QNode).control } ∧
    (QVariant.multipleChoice = QVariant.multipleChoice → qColors = qColors) :=
  ⟨(C8_amended_no_mutation_outside_control .input surveyId qInput
      (.elem "input" [("ref", "/data/q8")] [])
      { qInput with control := [("tag", "input"), ("ref", "/data/q8")] } rfl).1,
   (C8_amended_no_mutation_outside_control .multipleChoice surveyId qColors
      (.elem "select1" [("ref", "/data/color")]
        [.elem "itemset" [("nodeset", "instance(\x27colors\x27)/root/item")]
          [.elem "value" [("ref", "value")] [],
           .elem "label" [("ref", "label")] []]]) qColors rfl).2⟩

/-- Resolver mapping the field reference to question "m" to a media type. -/
def mediaResolver : String → RefCtx → Bool → Bool → String :=
  fun t _ _ _ => if t == "$\x7bm\x7d" then "image/png" else t

/-- Survey resolving the "m" reference, with no triggers. -/
def surveyM : Survey := ⟨mediaResolver, noTriggers⟩

/-- An upload node whose stored mediatype is a field reference. -/
def qUpMedia : QNode :=
  { name := "photo", type := "image", label := "P", hint := "", trigger := "",
    bind := [], control := [("tag", "upload"), ("mediatype", "$\x7bm\x7d")],
    itemset := "", choice_filter := "", parameters := [], query := "",
    itemset_multi_language := false, itemset_has_media := false,
    itemset_dyn_label := false, xpath := "/data/photo", labelAndHint := [],
    choices := [], tags := [] }

/-- The upload node with no mediatype in its control mapping. -/
def qUpNoMedia : QNode := { qUpMedia with control := [("tag", "upload")] }

/-- Counterexample to C10: Upload.build_xml runs the stored mediatype
through the resolution loop before _get_media_type reads it back, so the
emitted mediatype attribute is the resolved value, not the stored value
verbatim. -/
theorem C10_counterexample_mediatype_resolved :
    assocLookup "mediatype" qUpMedia.control = some "$\x7bm\x7d" ∧
    ((UploadQuestion_build_xml surveyM qUpMedia).toOption.map
        fun p => p.1.getAttr "mediatype") = some (some "image/png") ∧
    ("image/png" : String) ≠ "$\x7bm\x7d" :=
  ⟨rfl, rfl, by decide⟩

/-- C10 as amended: with no mediatype key both Upload and OsmUpload
build_xml fail with an uncaught KeyError (not a descriptive fatal error);
with the key present, Upload emits a mediatype attribute equal to the
stored value passed through the Reference Resolver, while OsmUpload emits
the stored value verbatim. -/
theorem C10_amended_mediatype (s : Survey) (q : QNode) :
    (hasKey q.control "mediatype" = false →
      UploadQuestion_build_xml s q = .error (.keyError "mediatype") ∧
      OsmUpload_build_xml s q = .error (.keyError "mediatype")) ∧
    (∀ m, assocLookup "mediatype" q.control = some m →
      ((UploadQuestion_build_xml s q).toOption.map
          fun p => p.1.getAttr "mediatype") =
        some (some (s.insert_xpaths m (qctx q) false false)) ∧
      ((OsmUpload_build_xml s q).toOption.map
          fun p => p.1.getAttr "mediatype") = some (some m)) := by
  constructor
  · intro hno
    have h0 : assocLookup "mediatype" q.control = none :=
      assocLookup_eq_none_of_not_hasKey q.control "mediatype" hno
    constructor
    · have h2 : assocLookup "mediatype"
          (updateAssoc (resolveControl s q q.control) "ref" q.xpath) = none := by
        rw [assocLookup_updateAssoc_of_ne _ _ _ _ (by decide),
          assocLookup_resolveControl, h0]
        rfl
      unfold UploadQuestion_build_xml
      simp only [h2]
    · have h2 : assocLookup "mediatype"
          (updateAssoc q.control "ref" q.xpath) = none := by
        rw [assocLookup_updateAssoc_of_ne _ _ _ _ (by decide), h0]
      unfold OsmUpload_build_xml
      simp only [h2]
  · intro m hm
    constructor
    · have h2 : assocLookup "mediatype"
          (updateAssoc (resolveControl s q q.control) "ref" q.xpath) =
          some (s.insert_xpaths m (qctx q) false false) := by
        rw [assocLookup_updateAssoc_of_ne _ _ _ _ (by decide),
          assocLookup_resolveControl, hm]
        rfl
      unfold UploadQuestion_build_xml
      simp only [h2, Except.toOption, Option.map]
      simp only [nodeP, XML.getAttr]
      rw [assocLookup_filter_tag _ _ (by decide), assocLookup_updateAssoc_self]
    · have h2 : assocLookup "mediatype"
          (updateAssoc q.control "ref" q.xpath) = some m := by
        rw [assocLookup_updateAssoc_of_ne _ _ _ _ (by decide), hm]
      unfold OsmUpload_build_xml
      simp only [h2, Except.toOption, Option.map]
      simp only [nodeP, XML.appendChildren, XML.getAttr]
      rw [assocLookup_filter_tag _ _ (by decide), assocLookup_updateAssoc_self]

/-- Witness for the amended C10: a missing mediatype raises KeyError;
the present reference-valued mediatype is emitted resolved by Upload and
verbatim by OsmUpload. -/
theorem C10_amended_mediatype_witness :
    UploadQuestion_build_xml surveyM qUpNoMedia =
      .error (.keyError "mediatype") ∧
    ((UploadQuestion_build_xml surveyM qUpMedia).toOption.map
        fun p => p.1.getAttr "mediatype") = some (some "image/png") ∧
    ((OsmUpload_build_xml surveyM qUpMedia).toOption.map
        fun p => p.1.getAttr "mediatype") = some (some "$\x7bm\x7d") :=
  ⟨((C10_amended_mediatype surveyM qUpNoMedia).1 rfl).1,
   ((C10_amended_mediatype surveyM qUpMedia).2 "$\x7bm\x7d" rfl).1,
   ((C10_amended_mediatype surveyM qUpMedia).2 "$\x7bm\x7d" rfl).2⟩

/-- An element absorbs an empty child list unchanged. -/
lemma appendChildren_nil (x : XML) : x.appendChildren [] = x := by
  cases x <;> simp [XML.appendChildren]

/-- C9: for a non-hidden node whose build succeeds, xml_control appends
one child per (source, expression) pair from the setvalue then the
setgeopoint lookups, in input order, each with ref equal to the resolved
(and stripped) source reference, the fixed event "xforms-value-changed",
and a value attribute, resolved against the host node, exactly when the
accompanying expression is truthy; with both lookups empty the built
control is returned unchanged. -/
theorem C9_nested_actions (v : QVariant) (s : Survey) (q : QNode) (x : XML)
    (q2 : QNode)
    (hh : isHidden q = false)
    (hb : build_xml v s q = .ok (x, q2)) :
    xml_control v s q = .ok (some (x.appendChildren
      ((s.get_trigger_values_for_question_name q.name "setvalue").map
        (fun item => XML.elem "setvalue"
          ([("ref", pythonStrip (s.insert_xpaths ("$\x7b" ++ item.1 ++ "\x7d")
              .surveyCtx false false)),
            ("event", "xforms-value-changed")] ++
           (match item.2 with
            | some ex => if ex ≠ "" then
                [("value", s.insert_xpaths ex (qctx q2) false false)] else []
            | none => [])) []) ++
       (s.get_trigger_values_for_question_name q.name "setgeopoint").map
        (fun item => XML.elem "odk:setgeopoint"
          ([("ref", pythonStrip (s.insert_xpaths ("$\x7b" ++ item.1 ++ "\x7d")
              .surveyCtx false false)),
            ("event", "xforms-value-changed")] ++
           (match item.2 with
            | some ex => if ex ≠ "" then
                [("value", s.insert_xpaths ex (qctx q2) false false)] else []
            | none => [])) []))), q2) ∧
    (s.get_trigger_values_for_question_name q.name "setvalue" = [] →
     s.get_trigger_values_for_question_name q.name "setgeopoint" = [] →
     xml_control v s q = .ok (some x, q2)) := by
  have hmap : ∀ (tag : String) (l : List (String × Option String)),
      l.map (setNode s q2 tag) = l.map (fun item => XML.elem tag
        ([("ref", pythonStrip (s.insert_xpaths ("$\x7b" ++ item.1 ++ "\x7d")
            .surveyCtx false false)),
          ("event", "xforms-value-changed")] ++
         (match item.2 with
          | some ex => if ex ≠ "" then
              [("value", s.insert_xpaths ex (qctx q2) false false)] else []
          | none => [])) []) := by
    intro tag l
    apply List.map_congr_left
    intro item _
    obtain ⟨nm, ex⟩ := item
    rcases ex with _ | ex
    · simp [setNode]
    · by_cases hex : ex = ""
      · subst hex
        simp [setNode]
      · simp [setNode, hex]
  have hmain : xml_control v s q = .ok (some (x.appendChildren
      ((s.get_trigger_values_for_question_name q.name "setvalue").map
        (setNode s q2 "setvalue") ++
       (s.get_trigger_values_for_question_name q.name "setgeopoint").map
        (setNode s q2 "odk:setgeopoint"))), q2) := by
    unfold xml_control
    rw [if_neg (by simp [hh])]
    simp only [hb]
  constructor
  · rw [hmain, hmap "setvalue", hmap "odk:setgeopoint"]
  · intro h1 h2
    rw [hmain, h1, h2]
    simp only [List.map_nil, List.nil_append, appendChildren_nil]

/-- Survey whose trigger lookup returns two setvalue actions (one with an
expression, one without) and one setgeopoint action for question "q". -/
def surveyN : Survey :=
  ⟨idResolver, fun n k =>
    if n == "q" && k == "setvalue" then [("src1", some "expr1"), ("src2", none)]
    else if n == "q" && k == "setgeopoint" then [("g1", some "")] else []⟩

/-- An input node named "q". -/
def qNest : QNode :=
  { name := "q", type := "text", label := "L", hint := "", trigger := "",
    bind := [], control := [("tag", "input")], itemset := "",
    choice_filter := "", parameters := [], query := "",
    itemset_multi_language := false, itemset_has_media := false,
    itemset_dyn_label := false, xpath := "/data/q", labelAndHint := [],
    choices := [], tags := [] }

/-- Witness for C9 at a concrete survey: two setvalue children then one
setgeopoint child, in order, with the value attribute present only for the
pair carrying a non-empty expression. -/
theorem C9_nested_actions_witness :
    xml_control .input surveyN qNest =
      .ok (some (.elem "input" [("ref", "/data/q")]
        [.elem "setvalue" [("ref", "$\x7bsrc1\x7d"),
           ("event", "xforms-value-changed"), ("value", "expr1")] [],
         .elem "setvalue" [("ref", "$\x7bsrc2\x7d"),
           ("event", "xforms-value-changed")] [],
         .elem "odk:setgeopoint" [("ref", "$\x7bg1\x7d"),
           ("event", "xforms-value-changed")] []]),
        { qNest with control := [("tag", "input"), ("ref", "/data/q")] }) :=
  (C9_nested_actions .input surveyN qNest
    (.elem "input" [("ref", "/data/q")] [])
    { qNest with control := [("tag", "input"), ("ref", "/data/q")] }
    rfl rfl).1

end Spec2Proof
